import Mathlib

/-!
# zabbix-fc: a shallow embedding of `main.go`

The program logs in to a FusionCompute endpoint, lists the hosts of site 1,
posts one realtime-metrics query for all of them and formats the answer into a
`strings.Builder`.

Conventions of the embedding

* Package-level variables (`fcToken`) and the effects of `main` are explicit
  fields of the record `Run` that `main` returns.
* The network is scripted: the environment `Env` holds the answer of the base
  transport `tr` at each of the three call sites (login, hosts, metrics).  An
  answer is taken as final (redirects are not followed in the model).
* Library code that the source only calls (`url.JoinPath`, `url.Parse`, JSON
  decoding, JSON string quoting) is a field of `Env`.
* A Go slice is a `List`; the slices built by the program are never nil.
* A `panic` is the `Outcome.panicked` result, never an exception of Lean.
-/

namespace ZabbixFC

/-! ## HTTP data model -/

/-- The type `http.Header`: a map from header name to the list of its values.
Every key the program uses is already in canonical MIME form, so key
canonicalisation is the identity on them. -/
abbrev Header := List (String × List String)

/-- All values stored under a key (the map lookup `h[key]`). -/
def Header.values : Header → String → List String
  | [], _ => []
  | (k, vs) :: rest, key => if k = key then vs else Header.values rest key

/-- The method `Header.Add`: append a value to the values of a key. -/
def Header.Add : Header → String → String → Header
  | [], key, value => [(key, [value])]
  | (k, vs) :: rest, key, value =>
    if k = key then (k, vs ++ [value]) :: rest else (k, vs) :: Header.Add rest key value

/-- The method `Header.Set`: replace the values of a key by a single value. -/
def Header.Set : Header → String → String → Header
  | [], key, value => [(key, [value])]
  | (k, vs) :: rest, key, value =>
    if k = key then (k, [value]) :: rest else (k, vs) :: Header.Set rest key value

/-- The method `Header.Get`: the first value of a key, or the empty string. -/
def Header.Get (h : Header) (key : String) : String :=
  match Header.values h key with
  | [] => ""
  | v :: _ => v

deriving instance DecidableEq for Except

/-- An outgoing `http.Request` (the fields the program touches). -/
structure Request where
  Method : String
  URL : String
  Body : Option String
  Header : Header
  deriving DecidableEq, Repr

/-- An `http.Response` (the fields the program reads). -/
structure Response where
  StatusCode : Int
  Status : String
  Body : String
  Header : Header
  deriving DecidableEq, Repr

/-! ## Package-level data -/

/-- The catalog `hostMetrics` (lines 27-43). -/
def hostMetrics : List String :=
  [ "cpu_usage",
    "mem_usage",
    "nic_byte_in",
    "nic_byte_out",
    "disk_io_in",
    "disk_io_out",
    "logic_disk_usage",
    "vm_mem_usage",
    "vm_mem_total",
    "vm_mem_free",
    "vm_run_num",
    "hosts_vio_in",
    "hosts_vio_out",
    "hosts_vbyte_in",
    "hosts_vbyte_out" ]

/-- The catalog `vmMetrics` (lines 45-55); declared but never used by `main`. -/
def vmMetrics : List String :=
  [ "cpu_usage",
    "mem_usage",
    "mem_free",
    "disk_usage",
    "nic_byte_in",
    "nic_byte_out",
    "nic_byte_in_out",
    "disk_io_in",
    "disk_io_out" ]

/-! ## Types declared outside `main.go`

`RespList`, `MonitorReqList`, `MonitorElement` and `MonitorRespList` are used by
`main` but declared in a file that is not part of the source tree.  Their field
names are taken from the uses in `main`; their JSON names from the specification. -/

/-- Modelled from the spec: the element type of `RespList.Hosts`, a host
descriptor with the fields `Urn`, `Name`, `IP` that `main` reads. -/
structure Host where
  Urn : String
  Name : String
  IP : String
  deriving DecidableEq, Repr

/-- Modelled from the spec: the type `RespList`, the decoded hosts response. -/
structure RespList where
  Hosts : List Host
  deriving DecidableEq, Repr

/-- Modelled from the spec: the type `MonitorElement`, one entry of the metric
request payload. -/
structure MonitorElement where
  Urn : String
  MetricID : List String
  deriving DecidableEq, Repr

/-- Modelled from the spec: the type `MonitorReqList`, a slice of `MonitorElement`. -/
abbrev MonitorReqList := List MonitorElement

/-- A value of the empty interface as JSON decoding produces it.  The code only
inspects the dynamic type, so the payload of a number is kept as an integer and
the payload of an array or object as its raw text. -/
inductive Any where
  | nil
  | bool (b : Bool)
  | float64 (v : Int)
  | string (s : String)
  | slice (raw : String)
  | map (raw : String)
  deriving DecidableEq, Repr

/-- The dynamic type name that the runtime prints when a type assertion fails. -/
def Any.typeName : Any → String
  | .nil => "nil"
  | .bool _ => "bool"
  | .float64 _ => "float64"
  | .string _ => "string"
  | .slice _ => "[]interface \x7b\x7d"
  | .map _ => "map[string]interface \x7b\x7d"

/-- Modelled from the spec: one metric sample of a response item; `MetricValue`
has an interface type (the source applies a type assertion to it). -/
structure MetricSample where
  MetricID : String
  MetricValue : Any
  deriving DecidableEq, Repr

/-- Modelled from the spec: one item of the metrics response. -/
structure MonitorItem where
  ObjectName : String
  Value : List MetricSample
  deriving DecidableEq, Repr

/-- Modelled from the spec: the type `MonitorRespList`, the decoded metrics response. -/
structure MonitorRespList where
  Items : List MonitorItem
  deriving DecidableEq, Repr

/-! ## `CustomTransport.RoundTrip` (lines 61-72) -/

/-- What one call of `RoundTrip` leaves behind: the request object (it is
modified in place), the returned pair, and the requests handed to `ct.T`. -/
structure Trip where
  req : Request
  result : Except String Response
  calls : List Request

/-- The statement `req.Header.Add(key, value)` on a request. -/
def Request.addHeader (req : Request) (key value : String) : Request :=
  { req with Header := Header.Add req.Header key value }

/-- The method `CustomTransport.RoundTrip`.  `T` is the underlying round-tripper,
`fcToken` the package variable, `calls` the requests `T` has received so far. -/
def CustomTransport.RoundTrip (T : Request → Except String Response) (fcToken : String)
    (req : Request) (calls : List Request) : Trip :=
  if fcToken = "" then
    { req := req, result := .error "token is empty", calls := calls }
  else
    let req := req.addHeader "X-Auth-Token" fcToken
    let req := req.addHeader "Accept" "application/json;version=8.1;charset=UTF-8"
    let req := req.addHeader "Content-Type" "application/json; charset=UTF-8"
    { req := req, result := T req, calls := calls ++ [req] }

/-! ## The payload loop (lines 185-192) -/

/-- The loop that fills `L2Obj`: start from the empty, non-nil `MonitorReqList`
and append one element per host. -/
def buildPayload (hosts : List Host) : MonitorReqList :=
  hosts.foldl (fun L2Obj host => L2Obj ++ [{ Urn := host.Urn, MetricID := hostMetrics }]) []

/-! ## The render loop (lines 218-224) -/

/-- The type assertion `value.MetricValue.(string)`: the string, or the panic
value of a failed assertion. -/
def assertString (v : Any) : Except String String :=
  match v with
  | .string s => .ok s
  | other => .error ("interface conversion: interface \x7b\x7d is " ++ other.typeName ++ ", not string")

/-- The call `fmt.Sprintf` of line 222 on three strings. -/
def sprintfLine (metricID objectName metricValue : String) : String :=
  metricID ++ "\x7bname=\"" ++ objectName ++ "\"\x7d=" ++ metricValue ++ "\n"

/-- The inner loop over `item.Value`, threading the builder content. -/
def renderValues (objectName : String) : List MetricSample → String → Except String String
  | [], message => .ok message
  | value :: rest, message =>
    match assertString value.MetricValue with
    | .error p => .error p
    | .ok s => renderValues objectName rest (message ++ sprintfLine value.MetricID objectName s)

/-- The outer loop over `monitorRespObj.Items`, threading the builder content. -/
def renderItems : List MonitorItem → String → Except String String
  | [], message => .ok message
  | item :: rest, message =>
    match renderValues item.ObjectName item.Value message with
    | .error p => .error p
    | .ok message => renderItems rest message

/-- The render loop at the end of `main`, started on the empty builder: the
final content of `message`, or the panic value. -/
def renderLoop (items : List MonitorItem) : Except String String :=
  renderItems items ""

/-! ## JSON encoding of the metric request (line 194) -/

/-- A JSON array of strings; `quote` is the JSON string encoder. -/
def encodeStrings (quote : String → String) (xs : List String) : String :=
  "[" ++ ",".intercalate (xs.map quote) ++ "]"

/-- Modelled from the spec: the JSON object of one `MonitorElement`, with the
JSON names `urn` and `metric_id` of the struct tags that are declared outside
the source tree. -/
def encodeElement (quote : String → String) (e : MonitorElement) : String :=
  "\x7b" ++ quote "urn" ++ ":" ++ quote e.Urn ++ "," ++
    quote "metric_id" ++ ":" ++ encodeStrings quote e.MetricID ++ "\x7d"

/-- The call `json.NewEncoder(&newBuffer).Encode(L2Obj)`: a JSON array followed by
a newline.  A non-nil slice of structs of strings always encodes. -/
def Encode (quote : String → String) (L2Obj : MonitorReqList) : Except String String :=
  .ok ("[" ++ ",".intercalate (L2Obj.map (encodeElement quote)) ++ "]\n")

/-! ## The environment of one run -/

/-- Everything `main` receives from outside: flags, library functions, and the
scripted answers of the network. -/
structure Env where
  /-- The flag `-fcURL`. -/
  fcURL : String
  /-- The flag `-fcUser`. -/
  fcUser : String
  /-- The flag `-fcPassword`. -/
  fcPassword : String
  /-- The flag `-debug`. -/
  debugFlag : Bool
  /-- The function `url.JoinPath`; `main` discards its error result. -/
  JoinPath : String → String → String
  /-- The error of `url.Parse` on a string, if any. -/
  parseError : String → Option String
  /-- The text of a parsed URL after its `RawQuery` is set. -/
  withQuery : String → String → String
  /-- The JSON string encoder. -/
  quote : String → String
  /-- The JSON decoder at type `RespList`. -/
  decodeRespList : String → Except String RespList
  /-- The JSON decoder at type `MonitorRespList`. -/
  decodeMonitorRespList : String → Except String MonitorRespList
  /-- The answer of `tr` to the login request. -/
  loginReply : Except String Response
  /-- The answer of `tr` to the hosts request. -/
  hostsReply : Except String Response
  /-- The answer of `tr` to the realtime-metrics request. -/
  metricsReply : Except String Response

/-- The three places where `main` sends a request. -/
inductive Stage where
  | login
  | hosts
  | metrics
  deriving DecidableEq, Repr

/-- The levels of the logger that `main` uses. -/
inductive Level where
  | info
  | error
  deriving DecidableEq, Repr

/-- One record written by the logger. -/
structure LogEntry where
  level : Level
  msg : String
  args : List String
  deriving DecidableEq, Repr

/-- How `main` ends. -/
inductive Outcome where
  | returned
  | panicked (value : String)
  deriving DecidableEq, Repr

/-- The observable result of one run of `main`. -/
structure Run where
  /-- The package variable `fcToken` when `main` ends. -/
  fcToken : String
  /-- The requests handed to the base transport `tr`, oldest first, each with
  the call site it comes from. -/
  wire : List (Stage × Request)
  /-- The records the logger wrote to standard error. -/
  log : List LogEntry
  /-- The content of the builder `message` after the render loop, if the run
  completed that loop. -/
  message : Option String
  /-- What was written to standard output. -/
  stdout : String
  outcome : Outcome
  deriving DecidableEq, Repr

/-- A call `logger.Info`: written only when `-debug` lowered the level (lines 94-96). -/
def logInfo (env : Env) (log : List LogEntry) (msg : String) (args : List String) :
    List LogEntry :=
  if env.debugFlag then log ++ [{ level := .info, msg := msg, args := args }] else log

/-- A call `logger.Error`: always written. -/
def logError (log : List LogEntry) (msg : String) (args : List String) : List LogEntry :=
  log ++ [{ level := .error, msg := msg, args := args }]

/-- The function `http.NewRequest`: an empty header map, or the parse error of the URL. -/
def NewRequest (env : Env) (method url : String) (body : Option String) :
    Except String Request :=
  match env.parseError url with
  | some err => .error err
  | none => .ok { Method := method, URL := url, Body := body, Header := [] }

/-- The text of the error that `http.Client` wraps around a failed round trip. -/
def clientError (op url err : String) : String :=
  op ++ " \"" ++ url ++ "\": " ++ err

/-- A run that ends by `return` before the render loop has completed. -/
def Run.stopped (fcToken : String) (wire : List (Stage × Request)) (log : List LogEntry) : Run :=
  { fcToken := fcToken, wire := wire, log := log, message := none, stdout := "",
    outcome := .returned }

/-! ## The function `main` (lines 91-226) -/

/-- The function `main`.  `fcToken` starts as the empty string, the zero value of
the package variable.  Nothing in `main` writes to standard output. -/
def main (env : Env) : Run :=
  let log := logInfo env [] "hello" ["your", "code"]
  if env.fcURL = "" ∨ env.fcUser = "" ∨ env.fcPassword = "" then
    Run.stopped "" [] (logError log "oops" ["command failed", "命令初始化失败"])
  else
  let log := logInfo env log "命令初始化成功" []
  -- login (lines 109-135), sent through the plain client
  let sessionURL := env.JoinPath env.fcURL "session"
  match NewRequest env "POST" sessionURL none with
  | .error err => Run.stopped "" [] (logError log "oops" [err, "请求创建失败"])
  | .ok req =>
  let req := req.addHeader "Accept" "application/json;version=8.1;charset=UTF-8"
  let req := req.addHeader "Content-Type" "application/json; charset=UTF-8"
  let req := req.addHeader "Accept-Language" "zh_CN"
  let req := req.addHeader "X-Auth-User" env.fcUser
  let req := req.addHeader "X-Auth-Key" env.fcPassword
  let req := req.addHeader "X-Auth-UserType" "0"
  let wire := [(Stage.login, req)]
  match env.loginReply with
  | .error err =>
    Run.stopped "" wire (logError log "oops" [clientError "Post" sessionURL err, "登录请求发送失败"])
  | .ok resp =>
  if resp.StatusCode ≠ 200 then
    Run.stopped "" wire (logError log "oops" [resp.Status, "登录失败，请检查用户名或密码"])
  else
  let fcToken := Header.Get resp.Header "X-Auth-Token"
  let log := logInfo env log "登录成功，获取token成功" ["token", fcToken]
  -- hosts of site 1 (lines 139-183), sent through `commonClient`
  let baseURL := env.JoinPath env.fcURL "service"
  let siteURL := env.JoinPath baseURL "sites"
  let siteIdURL := env.JoinPath siteURL "1"
  let hostURL := env.JoinPath siteIdURL "hosts"
  match env.parseError hostURL with
  | some err => Run.stopped fcToken wire (logError log "oops" [err, "hostURL构造失败"])
  | none =>
  let queryString := "limit=100&offset=0"
  let hostURLString := env.withQuery hostURL queryString
  match NewRequest env "GET" hostURLString none with
  | .error err => Run.stopped fcToken wire (logError log "oops" [err, "hostURL请求失败"])
  | .ok req =>
  let trip := CustomTransport.RoundTrip (fun _ => env.hostsReply) fcToken req []
  let wire := wire ++ trip.calls.map (fun r => (Stage.hosts, r))
  match trip.result with
  | .error err =>
    Run.stopped fcToken wire
      (logError log "oops" [clientError "Get" hostURLString err, "hostURL请求失败"])
  | .ok resp =>
  match env.decodeRespList resp.Body with
  | .error err =>
    { fcToken := fcToken, wire := wire, log := log, message := none, stdout := "",
      outcome := .panicked err }
  | .ok respObj =>
  let log := logInfo env log "获取主机列表成功" ["主机列表数目", toString respObj.Hosts.length]
  let log := respObj.Hosts.foldl
    (fun log host =>
      logInfo env log "主机信息" ["主机标识", host.Urn, "主机地址", host.Name, "IP", host.IP])
    log
  -- metric request (lines 185-214)
  let L2Obj := buildPayload respObj.Hosts
  match Encode env.quote L2Obj with
  | .error err => Run.stopped fcToken wire (logError log "oops" ["构造监控请求的消息体失败", err])
  | .ok newBuffer =>
  let monitorURL := env.JoinPath siteIdURL "monitors"
  let monitorrealtimeURL := env.JoinPath monitorURL "realtimedata"
  match NewRequest env "POST" monitorrealtimeURL (some newBuffer) with
  | .error err => Run.stopped fcToken wire (logError log "oops" ["监控请求发送失败", err])
  | .ok req =>
  let req := { req with Header := Header.Set req.Header "Content-Type" "application/json" }
  let trip := CustomTransport.RoundTrip (fun _ => env.metricsReply) fcToken req []
  let wire := wire ++ trip.calls.map (fun r => (Stage.metrics, r))
  match trip.result with
  | .error err =>
    Run.stopped fcToken wire
      (logError log "oops" ["监控请求发送失败", clientError "Post" monitorrealtimeURL err])
  | .ok resp =>
  match env.decodeMonitorRespList resp.Body with
  | .error err => Run.stopped fcToken wire (logError log "oops" ["解析监控响应失败", err])
  | .ok monitorRespObj =>
  -- render loop (lines 218-224)
  match renderLoop monitorRespObj.Items with
  | .error p =>
    { fcToken := fcToken, wire := wire, log := log, message := none, stdout := "",
      outcome := .panicked p }
  | .ok message =>
    { fcToken := fcToken, wire := wire, log := log, message := some message, stdout := "",
      outcome := .returned }

/-! ## A concrete environment for evaluation -/

/-- A small decoder table for hosts bodies. -/
def demoDecodeHosts (body : String) : Except String RespList :=
  if body = "\x7b\"hosts\":[\x7b\"urn\":\"u1\",\"name\":\"h1\",\"ip\":\"10.0.0.1\"\x7d]\x7d" then
    .ok { Hosts := [{ Urn := "u1", Name := "h1", IP := "10.0.0.1" }] }
  else if body = "\x7b\"hosts\":[]\x7d" then .ok { Hosts := [] }
  else .error "invalid character"

/-- A small decoder table for metrics bodies. -/
def demoDecodeMetrics (body : String) : Except String MonitorRespList :=
  if body = "string" then
    .ok { Items := [{ ObjectName := "h1",
                      Value := [{ MetricID := "cpu_usage", MetricValue := .string "42" }] }] }
  else if body = "number" then
    .ok { Items := [{ ObjectName := "h1",
                      Value := [{ MetricID := "cpu_usage", MetricValue := .float64 42 }] }] }
  else if body = "empty" then .ok { Items := [] }
  else .error "invalid character"

/-- An environment with well-formed flags and URLs; the three answers are given. -/
def demoEnv (loginReply hostsReply metricsReply : Except String Response) : Env :=
  { fcURL := "https://fc", fcUser := "admin", fcPassword := "secret", debugFlag := false,
    JoinPath := fun base elem => base ++ "/" ++ elem,
    parseError := fun _ => none,
    withQuery := fun u q => u ++ "?" ++ q,
    quote := fun s => "\"" ++ s ++ "\"",
    decodeRespList := demoDecodeHosts,
    decodeMonitorRespList := demoDecodeMetrics,
    loginReply := loginReply, hostsReply := hostsReply, metricsReply := metricsReply }

/-- A login answer with status 200 and the token `tok`. -/
def demoLoginOK : Except String Response :=
  .ok ⟨200, "200 OK", "", [("X-Auth-Token", ["tok"])]⟩

/-- A hosts answer with the given status whose body lists the host `u1`. -/
def demoHostsOne (code : Int) (status : String) : Except String Response :=
  .ok ⟨code, status,
    "\x7b\"hosts\":[\x7b\"urn\":\"u1\",\"name\":\"h1\",\"ip\":\"10.0.0.1\"\x7d]\x7d", []⟩

/-- A hosts answer with status 200 and an empty host list. -/
def demoHostsEmpty : Except String Response :=
  .ok ⟨200, "200 OK", "\x7b\"hosts\":[]\x7d", []⟩

/-- A metrics answer with status 200 and the given body. -/
def demoMetrics (body : String) : Except String Response :=
  .ok ⟨200, "200 OK", body, []⟩

/-! ## The URLs that `main` builds -/

/-- The value of `siteIdURL` (line 150): site 1 under `service/sites`. -/
def Env.siteIdURL (env : Env) : String :=
  env.JoinPath (env.JoinPath (env.JoinPath env.fcURL "service") "sites") "1"

/-- The value of `hostURL` (line 154). -/
def Env.hostURL (env : Env) : String :=
  env.JoinPath env.siteIdURL "hosts"

/-- The value of `monitorrealtimeURL` (line 201). -/
def Env.monitorrealtimeURL (env : Env) : String :=
  env.JoinPath (env.JoinPath env.siteIdURL "monitors") "realtimedata"

/-! ## Specification-side definitions -/

/-- The text of a metric value that is a string; other values have no text in
the observed renderer and are given the empty text. -/
def Any.text : Any → String
  | .string s => s
  | _ => ""

/-- The line format of the specification, without the line terminator:
the metric ID, then the object name in braces, then the value. -/
def specLine (metricID objectName metricValue : String) : String :=
  metricID ++ "\x7bname=\"" ++ objectName ++ "\"\x7d=" ++ metricValue

/-- The lines of a response in response order: items in order, and within an
item its values in order. -/
def specLines (items : List MonitorItem) : List String :=
  items.flatMap fun item =>
    item.Value.map fun value => specLine value.MetricID item.ObjectName value.MetricValue.text

/-- The text made of the given lines, each ended by a newline. -/
def unlines : List String → String
  | [] => ""
  | l :: rest => l ++ "\n" ++ unlines rest

/-- A run ends with no error: `main` returns and the logger wrote no error record. -/
def Run.noError (r : Run) : Prop :=
  r.outcome = .returned ∧ ∀ e ∈ r.log, e.level ≠ Level.error

instance (r : Run) : Decidable r.noError := by
  unfold Run.noError; infer_instance

/-! ## Lemmas on headers -/

theorem Header.values_Add_same (h : Header) (key value : String) :
    Header.values (Header.Add h key value) key = Header.values h key ++ [value] := by
  induction h with
  | nil => simp [Header.Add, Header.values]
  | cons e rest ih =>
    obtain ⟨k, vs⟩ := e
    by_cases hk : k = key
    · simp [Header.Add, Header.values, hk]
    · simp [Header.Add, Header.values, hk, ih]

theorem Header.values_Add_other (h : Header) (key value other : String) (hne : key ≠ other) :
    Header.values (Header.Add h key value) other = Header.values h other := by
  induction h with
  | nil => simp [Header.Add, Header.values, hne]
  | cons e rest ih =>
    obtain ⟨k, vs⟩ := e
    by_cases hk : k = key
    · subst hk
      simp [Header.Add, Header.values, hne]
    · by_cases ho : k = other
      · subst ho
        simp [Header.Add, Header.values, hk]
      · simp [Header.Add, Header.values, hk, ho, ih]

theorem Header.Get_of_values (h : Header) (key v : String) (vs : List String)
    (hv : Header.values h key = v :: vs) : Header.Get h key = v := by
  simp [Header.Get, hv]

/-! ## Lemmas on the loops -/

theorem unlines_append (xs ys : List String) : unlines (xs ++ ys) = unlines xs ++ unlines ys := by
  induction xs with
  | nil => simp [unlines]
  | cons x rest ih => simp [unlines, ih, String.append_assoc]

theorem sprintfLine_eq (metricID objectName metricValue : String) :
    sprintfLine metricID objectName metricValue
      = specLine metricID objectName metricValue ++ "\n" := by
  simp [sprintfLine, specLine]

theorem renderValues_strings (objectName : String) (values : List MetricSample)
    (h : ∀ value ∈ values, ∃ s, value.MetricValue = Any.string s) (message : String) :
    renderValues objectName values message
      = .ok (message ++ unlines (values.map fun value =>
          specLine value.MetricID objectName value.MetricValue.text)) := by
  induction values generalizing message with
  | nil => simp [renderValues, unlines]
  | cons value rest ih =>
    obtain ⟨s, hs⟩ := h value (List.mem_cons_self _ _)
    have hrest : ∀ v ∈ rest, ∃ s, v.MetricValue = Any.string s :=
      fun v hv => h v (List.mem_cons_of_mem _ hv)
    simp [renderValues, assertString, hs, ih hrest, unlines, Any.text, sprintfLine_eq,
      String.append_assoc]

theorem renderItems_strings (items : List MonitorItem)
    (h : ∀ item ∈ items, ∀ value ∈ item.Value, ∃ s, value.MetricValue = Any.string s)
    (message : String) :
    renderItems items message = .ok (message ++ unlines (specLines items)) := by
  induction items generalizing message with
  | nil => simp [renderItems, specLines, unlines]
  | cons item rest ih =>
    have hitem := h item (List.mem_cons_self _ _)
    have hrest : ∀ it ∈ rest, ∀ value ∈ it.Value, ∃ s, value.MetricValue = Any.string s :=
      fun it hit => h it (List.mem_cons_of_mem _ hit)
    have ih2 := ih hrest
    simp only [specLines] at ih2
    simp [renderItems, renderValues_strings _ _ hitem, ih2, specLines, unlines_append,
      String.append_assoc]

theorem buildPayload_loop (hosts : List Host) (acc : MonitorReqList) :
    hosts.foldl (fun L2Obj host => L2Obj ++ [{ Urn := host.Urn, MetricID := hostMetrics }]) acc
      = acc ++ hosts.map fun host => { Urn := host.Urn, MetricID := hostMetrics } := by
  induction hosts generalizing acc with
  | nil => simp
  | cons host rest ih => simp [ih]

theorem buildPayload_eq_map (hosts : List Host) :
    buildPayload hosts = hosts.map fun host => { Urn := host.Urn, MetricID := hostMetrics } := by
  simp [buildPayload, buildPayload_loop]

/-! ## Lemmas on `main` -/

theorem NewRequest_ok_iff (env : Env) (method url : String) (body : Option String)
    (req : Request) :
    NewRequest env method url body = .ok req
      ↔ env.parseError url = none
        ∧ req = { Method := method, URL := url, Body := body, Header := [] } := by
  unfold NewRequest
  cases env.parseError url with
  | none => simp [eq_comm]
  | some err => simp

theorem NewRequest_error_iff (env : Env) (method url : String) (body : Option String)
    (err : String) :
    NewRequest env method url body = .error err ↔ env.parseError url = some err := by
  unfold NewRequest
  cases env.parseError url with
  | none => simp
  | some e => simp

theorem logInfo_no_error (env : Env) (log : List LogEntry) (msg : String) (args : List String) :
    (∀ e ∈ logInfo env log msg args, e.level ≠ Level.error)
      ↔ ∀ e ∈ log, e.level ≠ Level.error := by
  unfold logInfo
  split
  · constructor
    · intro h e he
      exact h e (List.mem_append_left _ he)
    · intro h e he
      rcases List.mem_append.mp he with he | he
      · exact h e he
      · simp only [List.mem_singleton] at he
        subst he
        simp
  · rfl

/-- Nothing in `main` writes to standard output. -/
theorem main_stdout_empty (env : Env) : (main env).stdout = "" := by
  unfold main
  simp only [NewRequest, Encode, Run.stopped]
  repeat' split
  all_goals rfl

/-- A metrics request on the wire carries the encoding of the payload built from
the decoded hosts answer. -/
theorem main_metrics_body (env : Env) (rq : Request)
    (h : (Stage.metrics, rq) ∈ (main env).wire) :
    ∃ resp respObj body, env.hostsReply = .ok resp
      ∧ env.decodeRespList resp.Body = .ok respObj
      ∧ Encode env.quote (buildPayload respObj.Hosts) = .ok body
      ∧ rq.Body = some body := by
  revert h
  unfold main
  simp only [Encode, Run.stopped, CustomTransport.RoundTrip]
  repeat' split
  all_goals simp_all [NewRequest_ok_iff, Request.addHeader]

/-! ## The render loop -/

/-- C1: on a metric response whose values are all strings the render loop does
not fault and leaves in the builder, in response order, one line per
(item, value) pair, each of the form metricID, object name in braces, value;
there are as many lines as samples, and the one-sample response for `h1` gives
exactly the line of the specification. -/
theorem renderLoop_string_values (items : List MonitorItem)
    (h : ∀ item ∈ items, ∀ value ∈ item.Value, ∃ s, value.MetricValue = Any.string s) :
    renderLoop items = .ok (unlines (specLines items))
    ∧ (specLines items).length = (items.map fun item => item.Value.length).sum
    ∧ renderLoop [{ ObjectName := "h1",
                    Value := [{ MetricID := "cpu_usage", MetricValue := .string "42" }] }]
        = .ok (unlines ["cpu_usage\x7bname=\"h1\"\x7d=42"]) := by
  refine ⟨?_, ?_, by decide⟩
  · simpa [renderLoop] using renderItems_strings items h ""
  · clear h
    induction items with
    | nil => simp [specLines]
    | cons item rest ih =>
      simp only [specLines] at ih
      simp [specLines, ih]

theorem renderLoop_string_values_witness :
    renderLoop [{ ObjectName := "h1",
                  Value := [{ MetricID := "cpu_usage", MetricValue := .string "42" },
                            { MetricID := "mem_usage", MetricValue := .string "7.5" }] },
                { ObjectName := "h2",
                  Value := [{ MetricID := "cpu_usage", MetricValue := .string "" }] }]
      = .ok "cpu_usage\x7bname=\"h1\"\x7d=42\nmem_usage\x7bname=\"h1\"\x7d=7.5\ncpu_usage\x7bname=\"h2\"\x7d=\n" :=
  (renderLoop_string_values _ (by
    intro item hitem value hvalue
    simp only [List.mem_cons, List.mem_singleton, List.not_mem_nil, or_false] at hitem
    rcases hitem with rfl | rfl <;>
      simp only [List.mem_cons, List.mem_singleton, List.not_mem_nil, or_false] at hvalue
    · rcases hvalue with rfl | rfl <;> exact ⟨_, rfl⟩
    · subst hvalue; exact ⟨_, rfl⟩)).1.trans (by decide)

/-- C2: evaluation of the render loop on the response whose single value is the
number 42: the type assertion fails and the loop panics, no line is produced. -/
theorem renderLoop_numeric_value_panics :
    renderLoop [{ ObjectName := "h1",
                  Value := [{ MetricID := "cpu_usage", MetricValue := .float64 42 }] }]
      = .error "interface conversion: interface \x7b\x7d is float64, not string" := by
  decide

/-! ## The payload loop -/

/-- C3: the payload built from a host list has one entry per host, the entry at
each index carries the urn of the host at that index and the catalog
`hostMetrics`, which has 15 entries, the first `cpu_usage` and the last
`hosts_vbyte_out`, in the declared order; and the body of a metrics request that
`main` sends is the encoding of this payload for the decoded hosts answer. -/
theorem buildPayload_entries (hosts : List Host) :
    (buildPayload hosts).length = hosts.length
    ∧ (∀ i : Nat, (buildPayload hosts)[i]?
        = hosts[i]?.map fun host => ({ Urn := host.Urn, MetricID := hostMetrics } : MonitorElement))
    ∧ hostMetrics.length = 15
    ∧ hostMetrics.head? = some "cpu_usage"
    ∧ hostMetrics.getLast? = some "hosts_vbyte_out"
    ∧ hostMetrics
        = ["cpu_usage", "mem_usage", "nic_byte_in", "nic_byte_out", "disk_io_in", "disk_io_out",
           "logic_disk_usage", "vm_mem_usage", "vm_mem_total", "vm_mem_free", "vm_run_num",
           "hosts_vio_in", "hosts_vio_out", "hosts_vbyte_in", "hosts_vbyte_out"]
    ∧ (∀ (env : Env) (rq : Request) (resp : Response) (respObj : RespList),
        (Stage.metrics, rq) ∈ (main env).wire → env.hostsReply = .ok resp →
        env.decodeRespList resp.Body = .ok respObj → respObj.Hosts = hosts →
        Except.map some (Encode env.quote (buildPayload hosts)) = .ok rq.Body) := by
  refine ⟨?_, ?_, by decide, by decide, by decide, rfl, ?_⟩
  · simp [buildPayload_eq_map]
  · intro i
    simp [buildPayload_eq_map]
  · intro env rq resp respObj hrq hreply hdec hhosts
    obtain ⟨resp2, respObj2, body, h1, h2, h3, h4⟩ := main_metrics_body env rq hrq
    rw [hreply] at h1
    cases h1
    rw [hdec] at h2
    cases h2
    rw [← hhosts, h3, h4]
    rfl

set_option maxRecDepth 100000 in
theorem buildPayload_entries_witness :
    (buildPayload [⟨"u1", "h1", "10.0.0.1"⟩, ⟨"u2", "h2", "10.0.0.2"⟩]).length = 2
    ∧ (buildPayload [⟨"u1", "h1", "10.0.0.1"⟩, ⟨"u2", "h2", "10.0.0.2"⟩])[1]?
        = some ⟨"u2", hostMetrics⟩
    ∧ Except.map some (Encode (demoEnv demoLoginOK (demoHostsOne 200 "200 OK")
          (demoMetrics "string")).quote (buildPayload [⟨"u1", "h1", "10.0.0.1"⟩]))
        = .ok (some ("[\x7b\"urn\":\"u1\",\"metric_id\":[\"cpu_usage\",\"mem_usage\"," ++
            "\"nic_byte_in\",\"nic_byte_out\",\"disk_io_in\",\"disk_io_out\"," ++
            "\"logic_disk_usage\",\"vm_mem_usage\",\"vm_mem_total\",\"vm_mem_free\"," ++
            "\"vm_run_num\",\"hosts_vio_in\",\"hosts_vio_out\",\"hosts_vbyte_in\"," ++
            "\"hosts_vbyte_out\"]\x7d]\n")) := by
  refine ⟨(buildPayload_entries _).1, ((buildPayload_entries _).2.1 1).trans rfl, ?_⟩
  have h := (buildPayload_entries [⟨"u1", "h1", "10.0.0.1"⟩]).2.2.2.2.2.2
    (demoEnv demoLoginOK (demoHostsOne 200 "200 OK") (demoMetrics "string"))
    ⟨"POST", "https://fc/service/sites/1/monitors/realtimedata",
      some ("[\x7b\"urn\":\"u1\",\"metric_id\":[\"cpu_usage\",\"mem_usage\"," ++
            "\"nic_byte_in\",\"nic_byte_out\",\"disk_io_in\",\"disk_io_out\"," ++
            "\"logic_disk_usage\",\"vm_mem_usage\",\"vm_mem_total\",\"vm_mem_free\"," ++
            "\"vm_run_num\",\"hosts_vio_in\",\"hosts_vio_out\",\"hosts_vbyte_in\"," ++
            "\"hosts_vbyte_out\"]\x7d]\n"),
      [("Content-Type", ["application/json", "application/json; charset=UTF-8"]),
       ("X-Auth-Token", ["tok"]),
       ("Accept", ["application/json;version=8.1;charset=UTF-8"])]⟩
    ⟨200, "200 OK",
      "\x7b\"hosts\":[\x7b\"urn\":\"u1\",\"name\":\"h1\",\"ip\":\"10.0.0.1\"\x7d]\x7d", []⟩
    ⟨[⟨"u1", "h1", "10.0.0.1"⟩]⟩ (by decide) rfl (by decide) rfl
  exact h

/-! ## The transport -/

/-- C4: with an empty token `RoundTrip` returns the error `token is empty` and
no response, hands nothing to the underlying round-tripper and leaves the
request as it was; with a non-empty token it hands the request to the underlying
round-tripper exactly once and returns what that call returns; so it returns
without delegating exactly when the token is empty. -/
theorem RoundTrip_fails_iff_token_empty (T : Request → Except String Response)
    (fcToken : String) (req : Request) (calls : List Request) :
    (fcToken = "" →
      (CustomTransport.RoundTrip T fcToken req calls).result = .error "token is empty"
      ∧ (CustomTransport.RoundTrip T fcToken req calls).calls = calls
      ∧ (CustomTransport.RoundTrip T fcToken req calls).req = req)
    ∧ (fcToken ≠ "" →
      (CustomTransport.RoundTrip T fcToken req calls).calls
        = calls ++ [(CustomTransport.RoundTrip T fcToken req calls).req]
      ∧ (CustomTransport.RoundTrip T fcToken req calls).result
        = T (CustomTransport.RoundTrip T fcToken req calls).req)
    ∧ ((CustomTransport.RoundTrip T fcToken req calls).calls = calls ↔ fcToken = "") := by
  by_cases h : fcToken = ""
  · simp [CustomTransport.RoundTrip, h]
  · simp [CustomTransport.RoundTrip, h]

theorem RoundTrip_fails_iff_token_empty_witness :
    ((CustomTransport.RoundTrip (fun _ => .ok ⟨200, "200 OK", "", []⟩) ""
        ⟨"GET", "https://fc/hosts", none, []⟩ []).result = .error "token is empty"
      ∧ (CustomTransport.RoundTrip (fun _ => .ok ⟨200, "200 OK", "", []⟩) ""
        ⟨"GET", "https://fc/hosts", none, []⟩ []).calls = []
      ∧ (CustomTransport.RoundTrip (fun _ => .ok ⟨200, "200 OK", "", []⟩) ""
        ⟨"GET", "https://fc/hosts", none, []⟩ []).req = ⟨"GET", "https://fc/hosts", none, []⟩)
    ∧ ((CustomTransport.RoundTrip (fun _ => .error "connection refused") "tok"
        ⟨"GET", "https://fc/hosts", none, []⟩ []).calls
        = [] ++ [(CustomTransport.RoundTrip (fun _ => .error "connection refused") "tok"
            ⟨"GET", "https://fc/hosts", none, []⟩ []).req]
      ∧ (CustomTransport.RoundTrip (fun _ => .error "connection refused") "tok"
        ⟨"GET", "https://fc/hosts", none, []⟩ []).result
        = (fun _ => .error "connection refused")
            (CustomTransport.RoundTrip (fun _ => .error "connection refused") "tok"
              ⟨"GET", "https://fc/hosts", none, []⟩ []).req) :=
  ⟨(RoundTrip_fails_iff_token_empty _ "" _ []).1 rfl,
   (RoundTrip_fails_iff_token_empty _ "tok" _ []).2.1 (by decide)⟩

/-- C5 (counterexample): for the request of the hosts call, sent with the token
`tok`, the request handed to the underlying round-tripper has the Content-Type
`application/json; charset=UTF-8`, with a space, which is not the value of the
claim; and for a request that already carries a Content-Type, as the metrics
call does, the header stays equal to that earlier value. -/
theorem RoundTrip_content_type_counterexample :
    ¬ (∀ r ∈ (CustomTransport.RoundTrip (fun _ => .ok ⟨200, "200 OK", "", []⟩) "tok"
          ⟨"GET", "https://fc/service/sites/1/hosts?limit=100&offset=0", none, []⟩ []).calls,
        Header.Get r.Header "X-Auth-Token" = "tok"
        ∧ Header.Get r.Header "Accept" = "application/json;version=8.1;charset=UTF-8"
        ∧ Header.Get r.Header "Content-Type" = "application/json;charset=UTF-8")
    ∧ ¬ (∀ r ∈ (CustomTransport.RoundTrip (fun _ => .ok ⟨200, "200 OK", "", []⟩) "tok"
          ⟨"POST", "https://fc/service/sites/1/monitors/realtimedata", some "[]\n",
            [("Content-Type", ["application/json"])]⟩ []).calls,
        Header.Get r.Header "Content-Type" = "application/json; charset=UTF-8") := by
  decide

/-- C5 (amended): with a non-empty token `RoundTrip` hands to the underlying
round-tripper the request with three values appended: the token as last value of
X-Auth-Token, `application/json;version=8.1;charset=UTF-8` as last value of
Accept and `application/json; charset=UTF-8` as last value of Content-Type;
a header without an earlier value is equal to the appended value; method, URL
and body are unchanged. -/
theorem RoundTrip_appends_headers (T : Request → Except String Response)
    (fcToken : String) (req : Request) (calls : List Request) (h : fcToken ≠ "") :
    ∃ sent, (CustomTransport.RoundTrip T fcToken req calls).calls = calls ++ [sent]
      ∧ Header.values sent.Header "X-Auth-Token"
          = Header.values req.Header "X-Auth-Token" ++ [fcToken]
      ∧ Header.values sent.Header "Accept"
          = Header.values req.Header "Accept" ++ ["application/json;version=8.1;charset=UTF-8"]
      ∧ Header.values sent.Header "Content-Type"
          = Header.values req.Header "Content-Type" ++ ["application/json; charset=UTF-8"]
      ∧ (Header.values req.Header "X-Auth-Token" = [] →
          Header.Get sent.Header "X-Auth-Token" = fcToken)
      ∧ (Header.values req.Header "Accept" = [] →
          Header.Get sent.Header "Accept" = "application/json;version=8.1;charset=UTF-8")
      ∧ (Header.values req.Header "Content-Type" = [] →
          Header.Get sent.Header "Content-Type" = "application/json; charset=UTF-8")
      ∧ sent.Method = req.Method ∧ sent.URL = req.URL ∧ sent.Body = req.Body := by
  refine ⟨_, by simp only [CustomTransport.RoundTrip, h, if_false]; rfl, ?_⟩
  have hX : Header.values
      (((req.addHeader "X-Auth-Token" fcToken).addHeader "Accept"
          "application/json;version=8.1;charset=UTF-8").addHeader "Content-Type"
          "application/json; charset=UTF-8").Header "X-Auth-Token"
        = Header.values req.Header "X-Auth-Token" ++ [fcToken] := by
    simp only [Request.addHeader]
    rw [Header.values_Add_other _ _ _ _ (by decide), Header.values_Add_other _ _ _ _ (by decide),
      Header.values_Add_same]
  have hA : Header.values
      (((req.addHeader "X-Auth-Token" fcToken).addHeader "Accept"
          "application/json;version=8.1;charset=UTF-8").addHeader "Content-Type"
          "application/json; charset=UTF-8").Header "Accept"
        = Header.values req.Header "Accept"
            ++ ["application/json;version=8.1;charset=UTF-8"] := by
    simp only [Request.addHeader]
    rw [Header.values_Add_other _ _ _ _ (by decide), Header.values_Add_same,
      Header.values_Add_other _ _ _ _ (by decide)]
  have hC : Header.values
      (((req.addHeader "X-Auth-Token" fcToken).addHeader "Accept"
          "application/json;version=8.1;charset=UTF-8").addHeader "Content-Type"
          "application/json; charset=UTF-8").Header "Content-Type"
        = Header.values req.Header "Content-Type" ++ ["application/json; charset=UTF-8"] := by
    simp only [Request.addHeader]
    rw [Header.values_Add_same, Header.values_Add_other _ _ _ _ (by decide),
      Header.values_Add_other _ _ _ _ (by decide)]
  refine ⟨hX, hA, hC, ?_, ?_, ?_, rfl, rfl, rfl⟩
  · intro h0
    exact Header.Get_of_values _ _ _ [] (by rw [hX, h0]; rfl)
  · intro h0
    exact Header.Get_of_values _ _ _ [] (by rw [hA, h0]; rfl)
  · intro h0
    exact Header.Get_of_values _ _ _ [] (by rw [hC, h0]; rfl)

theorem RoundTrip_appends_headers_witness :
    "tok" ≠ ""
    ∧ ∃ sent, (CustomTransport.RoundTrip (fun _ => .ok ⟨200, "200 OK", "", []⟩) "tok"
          ⟨"POST", "https://fc/service/sites/1/monitors/realtimedata", some "[]\n",
            [("Content-Type", ["application/json"])]⟩ []).calls = [sent]
        ∧ Header.values sent.Header "Content-Type"
            = ["application/json", "application/json; charset=UTF-8"]
        ∧ Header.Get sent.Header "X-Auth-Token" = "tok"
        ∧ Header.Get sent.Header "Accept" = "application/json;version=8.1;charset=UTF-8" := by
  refine ⟨by decide, ?_⟩
  obtain ⟨sent, hcalls, -, -, hC, hX, hA, -, -⟩ :=
    RoundTrip_appends_headers (fun _ => .ok ⟨200, "200 OK", "", []⟩) "tok"
      ⟨"POST", "https://fc/service/sites/1/monitors/realtimedata", some "[]\n",
        [("Content-Type", ["application/json"])]⟩ [] (by decide)
  exact ⟨sent, by simpa using hcalls, by simpa [Header.values] using hC,
    hX (by decide), hA (by decide)⟩

/-! ## The login step -/

/-- C6: when the login answer has a status other than 200, `main` returns right
after the login: `fcToken` is still empty, the only request on the wire is the
login request (no hosts request, no metrics request), the render loop is never
run and nothing is written to standard output. -/
theorem main_login_rejected (env : Env) (resp : Response)
    (hreply : env.loginReply = .ok resp) (hstatus : resp.StatusCode ≠ 200) :
    (main env).fcToken = ""
    ∧ (∀ e ∈ (main env).wire, e.1 = Stage.login)
    ∧ (main env).wire.length ≤ 1
    ∧ (main env).message = none
    ∧ (main env).stdout = ""
    ∧ (main env).outcome = .returned := by
  unfold main
  simp only [hreply, NewRequest]
  split
  · simp [Run.stopped]
  · split
    · simp [Run.stopped]
    · rename_i heq
      split at heq
      · simp at heq
      · simp [Run.stopped, hstatus]

set_option maxRecDepth 100000 in
theorem main_login_rejected_witness :
    (main (demoEnv (.ok ⟨401, "401 Unauthorized", "", [("X-Auth-Token", ["tok"])]⟩)
        (demoHostsOne 200 "200 OK") (demoMetrics "string"))).fcToken = ""
    ∧ (main (demoEnv (.ok ⟨401, "401 Unauthorized", "", [("X-Auth-Token", ["tok"])]⟩)
        (demoHostsOne 200 "200 OK") (demoMetrics "string"))).wire.map Prod.fst
        = [Stage.login]
    ∧ (main (demoEnv (.ok ⟨401, "401 Unauthorized", "", [("X-Auth-Token", ["tok"])]⟩)
        (demoHostsOne 200 "200 OK") (demoMetrics "string"))).message = none :=
  have h := main_login_rejected
    (demoEnv (.ok ⟨401, "401 Unauthorized", "", [("X-Auth-Token", ["tok"])]⟩)
      (demoHostsOne 200 "200 OK") (demoMetrics "string"))
    ⟨401, "401 Unauthorized", "", [("X-Auth-Token", ["tok"])]⟩ rfl (by decide)
  ⟨h.1, by decide, h.2.2.2.1⟩

/-- C7: when the login request is sent and answered with status 200 and a
non-empty X-Auth-Token header, `fcToken` is that header value, every later
request on the wire (hosts, metrics) carries exactly that value as its
X-Auth-Token, the hosts request is a GET that is sent as soon as its URL parses,
and a metrics request is a POST to the realtime-data URL. -/
theorem main_token_from_login (env : Env) (resp : Response) (tok : String)
    (hflags : env.fcURL ≠ "" ∧ env.fcUser ≠ "" ∧ env.fcPassword ≠ "")
    (hurl : env.parseError (env.JoinPath env.fcURL "session") = none)
    (hreply : env.loginReply = .ok resp) (hstatus : resp.StatusCode = 200)
    (htok : Header.Get resp.Header "X-Auth-Token" = tok) (hne : tok ≠ "") :
    (main env).fcToken = tok
    ∧ (∀ e ∈ (main env).wire, e.1 ≠ Stage.login →
        Header.values e.2.Header "X-Auth-Token" = [tok]
        ∧ Header.Get e.2.Header "X-Auth-Token" = tok)
    ∧ (env.parseError env.hostURL = none →
        env.parseError (env.withQuery env.hostURL "limit=100&offset=0") = none →
        ∃ rq, (Stage.hosts, rq) ∈ (main env).wire ∧ rq.Method = "GET"
          ∧ rq.URL = env.withQuery env.hostURL "limit=100&offset=0")
    ∧ (∀ rq, (Stage.metrics, rq) ∈ (main env).wire →
        rq.Method = "POST" ∧ rq.URL = env.monitorrealtimeURL) := by
  subst htok
  unfold main
  simp only [Encode, Run.stopped, CustomTransport.RoundTrip, Env.hostURL, Env.siteIdURL,
    Env.monitorrealtimeURL]
  repeat' split
  all_goals simp_all [NewRequest_ok_iff, NewRequest_error_iff, Request.addHeader, Header.Add,
    Header.values, Header.Set, Header.Get]

set_option maxRecDepth 100000 in
theorem main_token_from_login_witness :
    (main (demoEnv demoLoginOK (demoHostsOne 200 "200 OK") (demoMetrics "string"))).fcToken
      = "tok"
    ∧ (main (demoEnv demoLoginOK (demoHostsOne 200 "200 OK") (demoMetrics "string"))).wire.map
        (fun e => (e.1, e.2.Method, Header.values e.2.Header "X-Auth-Token"))
      = [(Stage.login, "POST", []), (Stage.hosts, "GET", ["tok"]),
         (Stage.metrics, "POST", ["tok"])] :=
  ⟨(main_token_from_login
      (demoEnv demoLoginOK (demoHostsOne 200 "200 OK") (demoMetrics "string"))
      ⟨200, "200 OK", "", [("X-Auth-Token", ["tok"])]⟩ "tok"
      (by decide) rfl rfl rfl rfl (by decide)).1,
   by decide⟩

/-! ## The hosts step -/

set_option maxRecDepth 100000 in
/-- C8: evaluation of `main` on a run whose hosts request is answered with status
500 and a JSON body that lists one host: the status is not inspected, the
metrics request is sent with that host in its payload, and the render loop runs. -/
theorem main_hosts_status_ignored_example :
    (main (demoEnv demoLoginOK (demoHostsOne 500 "500 Internal Server Error")
        (demoMetrics "string"))).wire.map Prod.fst
      = [Stage.login, Stage.hosts, Stage.metrics]
    ∧ (main (demoEnv demoLoginOK (demoHostsOne 500 "500 Internal Server Error")
        (demoMetrics "string"))).message
      = some "cpu_usage\x7bname=\"h1\"\x7d=42\n"
    ∧ main (demoEnv demoLoginOK (demoHostsOne 500 "500 Internal Server Error")
        (demoMetrics "string"))
      = main (demoEnv demoLoginOK (demoHostsOne 200 "200 OK") (demoMetrics "string")) := by
  decide

set_option maxRecDepth 100000 in
/-- C9 (counterexample): two runs whose hosts answer decodes to the empty host
list.  In the first the metrics request fails in the transport and the run ends
with an error record; in the second the metrics answer holds one sample and the
builder is not empty. -/
theorem main_empty_hosts_counterexample :
    demoDecodeHosts "\x7b\"hosts\":[]\x7d" = .ok ⟨[]⟩
    ∧ ¬ (main (demoEnv demoLoginOK demoHostsEmpty (.error "connection refused"))).noError
    ∧ (main (demoEnv demoLoginOK demoHostsEmpty (demoMetrics "string"))).message
        = some "cpu_usage\x7bname=\"h1\"\x7d=42\n"
    ∧ (main (demoEnv demoLoginOK demoHostsEmpty (demoMetrics "string"))).message ≠ some "" := by
  decide

/-- C9 (amended): when the hosts answer decodes to the empty host list, the
payload is the empty list, its encoding is the empty JSON array followed by a
newline, this is the body of the metrics request, which is sent like any other
once its URL parses; and when that request is answered and the answer decodes to
no items, the builder is empty and the run ends with no error. -/
theorem main_empty_hosts (env : Env) (resp : Response) (respObj : RespList)
    (hhosts : env.hostsReply = .ok resp) (hdec : env.decodeRespList resp.Body = .ok respObj)
    (hempty : respObj.Hosts = []) :
    buildPayload respObj.Hosts = []
    ∧ Encode env.quote (buildPayload respObj.Hosts) = .ok "[]\n"
    ∧ (∀ rq, (Stage.metrics, rq) ∈ (main env).wire → rq.Body = some "[]\n")
    ∧ ((∃ rq, (Stage.hosts, rq) ∈ (main env).wire) →
        env.parseError env.monitorrealtimeURL = none →
        ∃ rq, (Stage.metrics, rq) ∈ (main env).wire)
    ∧ (∀ mresp mobj, (∃ rq, (Stage.metrics, rq) ∈ (main env).wire) →
        env.metricsReply = .ok mresp → env.decodeMonitorRespList mresp.Body = .ok mobj →
        mobj.Items = [] →
        (main env).message = some "" ∧ (main env).noError) := by
  have hpay : buildPayload respObj.Hosts = [] := by simp [hempty, buildPayload]
  have henc : Encode env.quote (buildPayload respObj.Hosts) = .ok "[]\n" := by
    rw [hpay]; rfl
  refine ⟨hpay, henc, ?_, ?_, ?_⟩
  · intro rq hrq
    obtain ⟨resp2, respObj2, body, h1, h2, h3, h4⟩ := main_metrics_body env rq hrq
    rw [hhosts] at h1
    cases h1
    rw [hdec] at h2
    cases h2
    rw [henc] at h3
    cases h3
    exact h4
  · unfold main
    simp only [Encode, Run.stopped, CustomTransport.RoundTrip, Env.hostURL, Env.siteIdURL,
      Env.monitorrealtimeURL]
    repeat' split
    all_goals simp_all [NewRequest_ok_iff, NewRequest_error_iff, Request.addHeader]
  · intro mresp mobj hsent hm hd hi
    revert hsent
    unfold main
    simp only [Encode, Run.stopped, CustomTransport.RoundTrip, Env.hostURL, Env.siteIdURL,
      Env.monitorrealtimeURL]
    repeat' split
    all_goals simp_all [NewRequest_ok_iff, NewRequest_error_iff, Request.addHeader,
      Run.noError, logInfo_no_error, renderLoop, renderItems]

set_option maxRecDepth 100000 in
theorem main_empty_hosts_witness :
    (main (demoEnv demoLoginOK demoHostsEmpty (demoMetrics "empty"))).wire.map
        (fun e => (e.1, e.2.Body))
      = [(Stage.login, none), (Stage.hosts, none), (Stage.metrics, some "[]\n")]
    ∧ (main (demoEnv demoLoginOK demoHostsEmpty (demoMetrics "empty"))).message = some ""
    ∧ (main (demoEnv demoLoginOK demoHostsEmpty (demoMetrics "empty"))).noError :=
  have h := main_empty_hosts (demoEnv demoLoginOK demoHostsEmpty (demoMetrics "empty"))
    ⟨200, "200 OK", "\x7b\"hosts\":[]\x7d", []⟩ ⟨[]⟩ rfl (by decide) rfl
  have h5 := h.2.2.2.2 ⟨200, "200 OK", "empty", []⟩ ⟨[]⟩
    (h.2.2.2.1
      ⟨⟨"GET", "https://fc/service/sites/1/hosts?limit=100&offset=0", none,
          [("X-Auth-Token", ["tok"]),
           ("Accept", ["application/json;version=8.1;charset=UTF-8"]),
           ("Content-Type", ["application/json; charset=UTF-8"])]⟩, by decide⟩ rfl)
    rfl (by decide) rfl
  ⟨by decide, h5.1, h5.2⟩

/-! ## Standard output -/

set_option maxRecDepth 100000 in
/-- C10: no run of `main` writes to standard output; evaluation on a run in which
every stage succeeds and the metrics answer holds one string-valued sample: the
line is in the builder, the run returns without error, and standard output is
empty. -/
theorem main_never_writes_stdout :
    (∀ env : Env, (main env).stdout = "")
    ∧ (main (demoEnv demoLoginOK (demoHostsOne 200 "200 OK") (demoMetrics "string"))).message
        = some "cpu_usage\x7bname=\"h1\"\x7d=42\n"
    ∧ (main (demoEnv demoLoginOK (demoHostsOne 200 "200 OK") (demoMetrics "string"))).noError
    ∧ (main (demoEnv demoLoginOK (demoHostsOne 200 "200 OK") (demoMetrics "string"))).stdout
        = "" :=
  ⟨main_stdout_empty, by decide, by decide, by decide⟩

end ZabbixFC
